import Mathlib

/-!
Verification of the ingestion-service extraction core
(`backend/ingestion-service`): the MIME-dispatching endpoint of `main.py`
and the per-format strategies in `extractors/`.  External parsing
libraries (PyMuPDF, python-docx, openpyxl, python-pptx, nbformat,
BeautifulSoup, Pillow/pytesseract) are modelled as parameters: each
strategy takes the library's parsing behaviour as a function argument and
the Lean definitions reproduce, line by line, what the Python code does
with the parsed values.
-/

/-! ### Python string primitives

Executable models of the Python string operations the service uses,
written by structural recursion over `List Char` so they evaluate in the
kernel. -/

/-- The ASCII whitespace characters recognised by Python's `str.strip()`
(the service never feeds it non-ASCII whitespace). -/
def isSpaceChar (c : Char) : Bool :=
  c == ' ' || c == '\t' || c == '\n' || c == '\r' || c == '\x0b' || c == '\x0c'

/-- Python `s.strip()`: drop leading and trailing whitespace. -/
def pyStrip (s : String) : String :=
  String.mk (((s.data.dropWhile isSpaceChar).reverse.dropWhile isSpaceChar).reverse)

/-- Python `s[:n]`: keep the first `n` characters. -/
def pyTrunc (s : String) (n : Nat) : String :=
  String.mk (s.data.take n)

/-- Does `pat` occur as a contiguous substring of the character list? -/
def hasSub (pat : List Char) : List Char → Bool
  | [] => pat.isEmpty
  | c :: rest => pat.isPrefixOf (c :: rest) || hasSub pat rest

/-- Python `pat in s`: substring containment. -/
def strContains (s pat : String) : Bool := hasSub pat.data s.data

/-- Number of positions of `l` at which `pat` starts (occurrence count,
overlaps included; the separators we count never overlap themselves). -/
def countOcc (pat : List Char) : List Char → Nat
  | [] => 0
  | c :: rest => (if pat.isPrefixOf (c :: rest) then 1 else 0) + countOcc pat rest

/-- Occurrence count at the `String` level. -/
def strCount (s pat : String) : Nat := countOcc pat.data s.data

/-- Python `s.startswith(pat)`. -/
def pyStartsWith (s pat : String) : Bool := pat.data.isPrefixOf s.data

/-! ### Data model shared by the dispatcher and the strategies -/

/-- Raw file contents handed to the core by the HTTP layer. -/
abbrev Bytes : Type := List Nat

/-- The `dict` a strategy returns.  Python dicts may omit keys; the
dispatcher reads them with `result.get(key, default)`, so each field is
an `Option`. -/
structure ExtractorDict where
  text : Option String := none
  page_count : Option Nat := none
  metadata : Option (List (String × String)) := none
deriving DecidableEq

/-- `ExtractResponse` of `main.py` (lines 42-45): the normalized output
contract `{text, page_count, metadata}`. -/
structure ExtractResponse where
  text : String
  page_count : Nat
  metadata : List (String × String)
deriving DecidableEq

/-- The service-level failure taxonomy of `main.py` / spec section 7:
HTTP 415 (`Unsupported MIME type`), HTTP 400 (`Empty file`) and
HTTP 500 (`Extraction error`). -/
inductive DispatchError where
  | UnsupportedType (mime_type : String)
  | EmptyInput
  | ExtractionFailed (detail : String)
deriving DecidableEq

/-- A strategy as the dispatcher sees it: it may return a result dict or
raise an exception (modelled as `Except` with the exception's string
rendering). -/
def Extractor : Type := Bytes → String → Except String ExtractorDict

/-! ### PDF strategy — `extractors/pdf.py` -/

/-- What `fitz.open(stream=..., filetype="pdf")` yields on success:
the ordered `page.get_text("text")` results and `doc.metadata`. -/
structure FitzDoc where
  pages : List String
  metadata : List (String × String)

namespace pdf

/-- `pdf.extract` (pdf.py lines 10-44), parameterized by the behaviour
of `fitz.open` on the byte buffer.  On open failure returns the
`[PDF Error]` dict (no `metadata` key); otherwise keeps the pages whose
text is non-blank, joins them with the page-break separator, and reports
their number as `page_count`. -/
def extract (fitzOpen : Bytes → Except String FitzDoc)
    (file_bytes : Bytes) (filename : String) : ExtractorDict :=
  match fitzOpen file_bytes with
  | .error e =>
      { text := some ("[PDF Error] Could not open " ++ filename ++ ": " ++ e),
        page_count := some 0 }
  | .ok doc =>
      let page_texts := doc.pages.filter (fun p => pyStrip p != "")
      { text := some (String.intercalate "\n\n---PAGE BREAK---\n\n" page_texts),
        page_count := some page_texts.length,
        metadata := some
          [("title", (doc.metadata.lookup "title").getD ""),
           ("author", (doc.metadata.lookup "author").getD ""),
           ("subject", (doc.metadata.lookup "subject").getD "")] }

end pdf

/-! ### Dispatcher — `main.py` `extract` endpoint (lines 80-107) -/

/-- The core of the `/extract` endpoint (`main.py` lines 88-107):
registry lookup (415 on miss), empty-byte check (400), then one
synchronous strategy call whose exception, if any, is converted to a 500
with the exception text truncated to 300 characters; on success the
response is built with `result.get("text","").strip()`,
`result.get("page_count", 0)` and `result.get("metadata", {})`. -/
def dispatch (registry : List (String × Extractor)) (mime_type : String)
    (file_bytes : Bytes) (filename : String) :
    Except DispatchError ExtractResponse :=
  match registry.lookup mime_type with
  | none => .error (.UnsupportedType mime_type)
  | some extractor_fn =>
      if file_bytes = [] then .error .EmptyInput
      else
        match extractor_fn file_bytes filename with
        | .error exc =>
            .error (.ExtractionFailed ("Extraction error: " ++ pyTrunc exc 300))
        | .ok result =>
            .ok { text := pyStrip (result.text.getD ""),
                  page_count := result.page_count.getD 0,
                  metadata := result.metadata.getD [] }

/-! ### Office strategies — `extractors/office.py`

The three office extractors let library exceptions propagate to the
dispatcher (`office.py` catches nothing), so each is an `Extractor`
whose error case is exactly the library call failing. -/

/-- A `python-docx` body paragraph: its `text` and `style.name`. -/
structure DocxPara where
  text : String
  style_name : String

/-- What `Document(io.BytesIO(file_bytes))` yields: body paragraphs in
document order and tables (each a list of rows of cell texts). -/
structure DocxDoc where
  paragraphs : List DocxPara
  tables : List (List (List String))

/-- An `openpyxl` worksheet: its name and the rows from
`iter_rows(values_only=True)`, cells already string-coerced (`str(v)`),
`none` for `None` cells. -/
structure XlsxSheet where
  name : String
  rows : List (List (Option String))

/-- What `openpyxl.load_workbook` yields: sheets in workbook order. -/
structure Workbook where
  sheets : List XlsxSheet

/-- A `python-pptx` shape: the paragraphs of its text frame (each a list
of run texts) when `has_text_frame`, and its table rows (cell
`text_frame.text` values) when `has_table`. -/
structure PptxShape where
  text_frame : Option (List (List String))
  table : Option (List (List String))

/-- A slide: its shapes and, when `has_notes_slide`, the
`notes_text_frame.text`. -/
structure PptxSlide where
  shapes : List PptxShape
  notes : Option String

/-- What `Presentation(io.BytesIO(file_bytes))` yields. -/
structure Pptx where
  slides : List PptxSlide

namespace office

/-- One body paragraph's contribution (office.py lines 22-29): blank
paragraphs are dropped, `Heading*` styles are wrapped `\n## <text>\n`,
others emitted as-is. -/
def docxParaPart (para : DocxPara) : Option String :=
  let text := pyStrip para.text
  if text = "" then none
  else if pyStartsWith para.style_name "Heading" then some ("\n## " ++ text ++ "\n")
  else some text

/-- One table's contribution (office.py lines 32-39): rows pipe-joined
from stripped cells, blank rows skipped, empty tables dropped. -/
def docxTablePart (table : List (List String)) : Option String :=
  let rows := table.filterMap (fun row =>
    let row_text := String.intercalate " | " (row.map pyStrip)
    if pyStrip row_text = "" then none else some row_text)
  if rows = [] then none else some ("\n" ++ String.intercalate "\n" rows ++ "\n")

/-- The pure body of `extract_docx` after `Document()` succeeded
(office.py lines 18-41): paragraphs first, then all tables. -/
def docxRender (doc : DocxDoc) : ExtractorDict :=
  let parts := doc.paragraphs.filterMap docxParaPart ++ doc.tables.filterMap docxTablePart
  { text := some (String.intercalate "\n" parts), page_count := some 0 }

/-- `office.extract_docx` (office.py lines 14-41): the `Document(...)`
call may raise; nothing here catches it. -/
def extract_docx (documentOpen : Bytes → Except String DocxDoc) : Extractor :=
  fun file_bytes _filename => (documentOpen file_bytes).map docxRender

/-- One sheet's contribution (office.py lines 52-59): a
`\n# Sheet: <name>\n` marker, then tab-joined non-null cells per row,
fully-empty rows skipped. -/
def xlsxSheetParts (ws : XlsxSheet) : List String :=
  ("\n# Sheet: " ++ ws.name ++ "\n") ::
    ws.rows.filterMap (fun row =>
      let cells := row.filterMap id
      if cells = [] then none else some (String.intercalate "\t" cells))

/-- The pure body of `extract_xlsx` after `load_workbook` succeeded
(office.py lines 49-62). -/
def xlsxRender (wb : Workbook) : ExtractorDict :=
  { text := some (String.intercalate "\n" (wb.sheets.map xlsxSheetParts).join),
    page_count := some 0 }

/-- `office.extract_xlsx` (office.py lines 46-62): `load_workbook` may
raise; nothing here catches it. -/
def extract_xlsx (loadWorkbook : Bytes → Except String Workbook) : Extractor :=
  fun file_bytes _filename => (loadWorkbook file_bytes).map xlsxRender

/-- One shape's contribution (office.py lines 77-92): text-frame
paragraphs as concatenated run text (blank lines dropped), then table
rows pipe-joined from stripped cell texts (blank rows dropped). -/
def shapeParts (shape : PptxShape) : List String :=
  (match shape.text_frame with
   | none => []
   | some paras => paras.filterMap (fun runs =>
       let line := pyStrip (String.join runs)
       if line = "" then none else some line)) ++
  (match shape.table with
   | none => []
   | some rows => rows.filterMap (fun cells =>
       let row_text := String.intercalate " | " (cells.map pyStrip)
       if pyStrip row_text = "" then none else some row_text))

/-- Everything a slide emits beyond its header (office.py lines 77-98):
shape content in shape order, then `[Notes] <text>` when the notes text
is non-blank. -/
def slideContent (slide : PptxSlide) : List String :=
  (slide.shapes.map shapeParts).join ++
  (match slide.notes with
   | none => []
   | some nt =>
       let notes_text := pyStrip nt
       if notes_text = "" then [] else ["[Notes] " ++ notes_text])

/-- `slide_parts` for 1-based slide number `slide_num` (office.py
lines 75-98): header marker first, then the slide's content. -/
def slideParts (slide_num : Nat) (slide : PptxSlide) : List String :=
  ("\n--- Slide " ++ toString slide_num ++ " ---") :: slideContent slide

/-- The `parts` accumulation of office.py lines 74-101: slides whose
`slide_parts` is just the header (`len == 1`) are skipped entirely. -/
def pptxParts (slide_num : Nat) : List PptxSlide → List String
  | [] => []
  | slide :: rest =>
      let sp := slideParts slide_num slide
      (if sp.length > 1 then sp else []) ++ pptxParts (slide_num + 1) rest

/-- The pure body of `extract_pptx` after `Presentation()` succeeded
(office.py lines 71-103): note `page_count` is the total slide count. -/
def pptxRender (prs : Pptx) : ExtractorDict :=
  { text := some (String.intercalate "\n" (pptxParts 1 prs.slides)),
    page_count := some prs.slides.length }

/-- `office.extract_pptx` (office.py lines 67-103): `Presentation(...)`
may raise; nothing here catches it. -/
def extract_pptx (presentationOpen : Bytes → Except String Pptx) : Extractor :=
  fun file_bytes _filename => (presentationOpen file_bytes).map pptxRender

end office

/-! ### Notebook strategy — `extractors/notebook.py` -/

/-- A notebook cell's `source`: either one string or a list of line
fragments to concatenate (notebook.py lines 27-29). -/
inductive NbSource where
  | str (s : String)
  | fragments (l : List String)

/-- A parsed cell; `cell.get("cell_type", "")` and
`cell.get("source", "")` read absent keys as defaults, hence `Option`
fields. -/
structure NbCell where
  cell_type : Option String := none
  source : Option NbSource := none

namespace notebook

/-- One cell's contribution (notebook.py lines 25-39): fragments are
concatenated, the source stripped; blank source is skipped; markdown and
raw cells are emitted verbatim, code cells inside a ```python fence;
cells of any other type produce nothing. -/
def cellPart (cell : NbCell) : Option String :=
  let cell_type := cell.cell_type.getD ""
  let source := match cell.source.getD (.str "") with
    | .str s => s
    | .fragments l => String.join l
  let source := pyStrip source
  if source = "" then none
  else if cell_type = "markdown" then some source
  else if cell_type = "code" then some ("\n```python\n" ++ source ++ "\n```\n")
  else if cell_type = "raw" then some source
  else none

/-- `notebook.extract` (notebook.py lines 9-41), parameterized by the
combined nbformat-then-raw-JSON parse (lines 10-19); when both parse
paths fail (with the JSON path's exception `e`) it returns the
`[Notebook Error]` dict, otherwise the title line plus the cells'
contributions joined by blank lines. -/
def extract (parseCells : Bytes → Except String (List NbCell))
    (file_bytes : Bytes) (filename : String) : ExtractorDict :=
  match parseCells file_bytes with
  | .error e =>
      { text := some ("[Notebook Error] Could not parse " ++ filename ++ ": " ++ e),
        page_count := some 0 }
  | .ok cells =>
      { text := some (String.intercalate "\n\n"
          (("# Jupyter Notebook: " ++ filename ++ "\n") :: cells.filterMap cellPart)),
        page_count := some 0 }

end notebook

/-! ### HTML strategy — `extractors/html_extractor.py`

The claims concern the BeautifulSoup path (the library present), so the
parsed DOM is the strategy's parameter: a tree of tags and navigable
strings. -/

/-- A parsed DOM node: a navigable string or a tag with children. -/
inductive Node where
  | text (s : String)
  | elem (name : String) (children : List Node)

namespace html_extractor

/-- The tag list of html_extractor.py line 21. -/
def NONCONTENT_TAGS : List String :=
  ["script", "style", "nav", "footer", "header", "aside", "noscript"]

mutual
/-- `tag.decompose()` over every tag named in `banned`
(html_extractor.py lines 21-22): a banned tag disappears with its whole
subtree; other nodes are kept with their children filtered. -/
def decomposeNode (banned : List String) : Node → List Node
  | .text s => [.text s]
  | .elem name children =>
      if name ∈ banned then []
      else [.elem name (decomposeKids banned children)]

/-- `decomposeNode` over a child list, concatenating survivors. -/
def decomposeKids (banned : List String) : List Node → List Node
  | [] => []
  | n :: rest => decomposeNode banned n ++ decomposeKids banned rest
end

/-- The whole-document cleanup: the soup root (`[document]`, never a
banned name) survives with all banned descendants decomposed. -/
def stripRoot (banned : List String) : Node → Node
  | .text s => .text s
  | .elem name children => .elem name (decomposeKids banned children)

mutual
/-- `soup.find(target)`: first tag with the given name in document
order (preorder).  The root's synthetic `[document]` name never matches,
so including the root in the search is equivalent to bs4's
descendants-only search. -/
def findNode (target : String) : Node → Option Node
  | .text _ => none
  | .elem name children =>
      if name = target then some (.elem name children)
      else findKids target children

/-- `findNode` over a child list, first hit wins. -/
def findKids (target : String) : List Node → Option Node
  | [] => none
  | n :: rest =>
      match findNode target n with
      | some found => some found
      | none => findKids target rest
end

/-- `main = soup.find("article") or soup.find("main") or
soup.find("body") or soup` (html_extractor.py line 25). -/
def pickRoot (soup : Node) : Node :=
  match findNode "article" soup with
  | some n => n
  | none =>
      match findNode "main" soup with
      | some n => n
      | none =>
          match findNode "body" soup with
          | some n => n
          | none => soup

mutual
/-- `element.descendants`: every node strictly below `n`, preorder. -/
def descNode : Node → List Node
  | .text _ => []
  | .elem _ children => descKids children

/-- Descendant traversal of a child list: each child followed by its own
descendants. -/
def descKids : List Node → List Node
  | [] => []
  | n :: rest => (n :: descNode n) ++ descKids rest
end

mutual
/-- The navigable strings below a node, in document order. -/
def nodeStrings : Node → List String
  | .text s => [s]
  | .elem _ children => kidsStrings children

/-- `nodeStrings` over a child list. -/
def kidsStrings : List Node → List String
  | [] => []
  | n :: rest => nodeStrings n ++ kidsStrings rest
end

/-- `element.get_text(" ", strip=True)`: each descendant string
stripped, empties dropped, the rest joined by a single space. -/
def getTextStrip (n : Node) : String :=
  String.intercalate " " (((nodeStrings n).map pyStrip).filter (fun s => s != ""))

/-- One traversal step (html_extractor.py lines 28-45): only headings,
paragraphs, list items and table cells emit a line; navigable strings
and all other tags emit nothing. -/
def elementLine (n : Node) : Option String :=
  match n with
  | .text _ => none
  | .elem name _ =>
      if name ∈ ["h1", "h2", "h3", "h4", "h5", "h6"] then
        let text := getTextStrip n
        if text = "" then none else some ("\n## " ++ text ++ "\n")
      else if name = "p" then
        let text := getTextStrip n
        if text = "" then none else some text
      else if name = "li" then
        let text := getTextStrip n
        if text = "" then none else some ("• " ++ text)
      else if name = "td" || name = "th" then
        let text := getTextStrip n
        if text = "" then none else some text
      else none

/-- The blank-entry collapse loop of html_extractor.py lines 48-55,
carrying the `prev_blank` flag. -/
def collapseFrom (prev_blank : Bool) : List String → List String
  | [] => []
  | line :: rest =>
      let is_blank := pyStrip line == ""
      if is_blank && prev_blank then collapseFrom prev_blank rest
      else line :: collapseFrom is_blank rest

/-- The full "deduplicate consecutive blank lines" pass
(`prev_blank = False` initially). -/
def collapseBlankLines (lines : List String) : List String :=
  collapseFrom false lines

/-- The intermediate `lines` list of html_extractor.py lines 27-45 for a
parsed soup: cleanup, root narrowing, then the descendant traversal. -/
def soupLines (soup0 : Node) : List String :=
  (descNode (pickRoot (stripRoot NONCONTENT_TAGS soup0))).filterMap elementLine

/-- `html_extractor.extract` (lines 17-57) on the BeautifulSoup path,
parameterized by the parse `bytes → soup`; the filename is unused by the
source as well. -/
def extract (soupParse : Bytes → Node) (file_bytes : Bytes)
    (_filename : String) : ExtractorDict :=
  { text := some (String.intercalate "\n" (collapseBlankLines (soupLines (soupParse file_bytes)))),
    page_count := some 0 }

end html_extractor

/-! ### Image (OCR) strategy — `extractors/image.py` -/

/-- What `PIL.Image.open` yields: the decoded image's mode and pixel
size. -/
structure PILImage where
  mode : String
  width : Nat
  height : Nat

namespace image

/-- `image.extract` (image.py lines 19-57), parameterized by the
process-wide `OCR_AVAILABLE` flag, the behaviour of `PILImage.open` on
the bytes, and `pytesseract.image_to_string` on the (mode-normalized)
image.  When the flag is false the informational dict is returned before
either library function is consulted; otherwise decode/OCR failures are
folded into an `OCR failed` text. -/
def extract (OCR_AVAILABLE : Bool) (pilOpen : Bytes → Except String PILImage)
    (imageToString : PILImage → Except String String)
    (file_bytes : Bytes) (filename : String) : ExtractorDict :=
  if !OCR_AVAILABLE then
    { text := some ("[Image] " ++ filename ++
        "\nOCR not available on this server (Tesseract not installed).\n" ++
        "Install tesseract-ocr to enable full text extraction from images."),
      page_count := some 0 }
  else
    match pilOpen file_bytes with
    | .error e =>
        { text := some ("[Image] " ++ filename ++ " — OCR failed: " ++ e),
          page_count := some 0 }
    | .ok img0 =>
        let img := if img0.mode != "RGB" && img0.mode != "L" then
            { img0 with mode := "RGB" } else img0
        match imageToString img with
        | .error e =>
            { text := some ("[Image] " ++ filename ++ " — OCR failed: " ++ e),
              page_count := some 0 }
        | .ok raw =>
            let text := pyStrip raw
            if text = "" then
              { text := some ("[Image] " ++ filename ++ "\nNo text detected by OCR."),
                page_count := some 0 }
            else
              { text := some ("[Image: " ++ filename ++ "]\n\n" ++ text),
                page_count := some 0,
                metadata := some [("width", toString img.width),
                                  ("height", toString img.height)] }

end image

/-! ### The concrete Strategy Registry — `main.py` lines 49-68 -/

/-- The external libraries' behaviour, bundled so the registry can be
built for any ambient process state. -/
structure ExternalLibs where
  fitzOpen : Bytes → Except String FitzDoc
  documentOpen : Bytes → Except String DocxDoc
  loadWorkbook : Bytes → Except String Workbook
  presentationOpen : Bytes → Except String Pptx
  parseCells : Bytes → Except String (List NbCell)
  soupParse : Bytes → Node
  OCR_AVAILABLE : Bool
  pilOpen : Bytes → Except String PILImage
  imageToString : PILImage → Except String String

/-- The `EXTRACTORS` mapping of main.py lines 49-68.  The PDF, notebook,
HTML and image strategies never raise (their failure handling is
internal), so their entries always return `.ok`; the three office
entries propagate their library exception. -/
def EXTRACTORS (L : ExternalLibs) : List (String × Extractor) :=
  [("application/pdf", fun b f => .ok (pdf.extract L.fitzOpen b f)),
   ("application/vnd.openxmlformats-officedocument.wordprocessingml.document",
      office.extract_docx L.documentOpen),
   ("application/vnd.openxmlformats-officedocument.spreadsheetml.sheet",
      office.extract_xlsx L.loadWorkbook),
   ("application/vnd.openxmlformats-officedocument.presentationml.presentation",
      office.extract_pptx L.presentationOpen),
   ("application/json", fun b f => .ok (notebook.extract L.parseCells b f)),
   ("application/x-ipynb+json", fun b f => .ok (notebook.extract L.parseCells b f)),
   ("application/vnd.google.colaboratory", fun b f => .ok (notebook.extract L.parseCells b f)),
   ("text/html", fun b f => .ok (html_extractor.extract L.soupParse b f)),
   ("image/jpeg", fun b f => .ok (image.extract L.OCR_AVAILABLE L.pilOpen L.imageToString b f)),
   ("image/png", fun b f => .ok (image.extract L.OCR_AVAILABLE L.pilOpen L.imageToString b f)),
   ("image/webp", fun b f => .ok (image.extract L.OCR_AVAILABLE L.pilOpen L.imageToString b f)),
   ("image/gif", fun b f => .ok (image.extract L.OCR_AVAILABLE L.pilOpen L.imageToString b f)),
   ("image/tiff", fun b f => .ok (image.extract L.OCR_AVAILABLE L.pilOpen L.imageToString b f)),
   ("image/bmp", fun b f => .ok (image.extract L.OCR_AVAILABLE L.pilOpen L.imageToString b f))]

/-! ### Fixtures and auxiliary predicates used by the verification -/

/-- Python `s.split("\n")` (used to exhibit the line decomposition of an
output text): accumulate the current line, cut at every newline. -/
def splitNlAux : List Char → List Char → List String
  | acc, [] => [String.mk acc.reverse]
  | acc, c :: rest =>
      if c = '\n' then String.mk acc.reverse :: splitNlAux [] rest
      else splitNlAux (c :: acc) rest

/-- `s.split("\n")` at the `String` level. -/
def pySplitNl (s : String) : List String := splitNlAux [] s.data

/-- No tag named in `banned` occurs anywhere in the forest (checked
recursively through all children). -/
def bannedFreeKids (banned : List String) : List Node → Bool
  | [] => true
  | .text _ :: rest => bannedFreeKids banned rest
  | .elem name children :: rest =>
      !(decide (name ∈ banned)) && bannedFreeKids banned children &&
        bannedFreeKids banned rest

/-- A fixed ambient-library behaviour used to exercise the dispatcher on
concrete inputs: every binary parse fails, OCR is unavailable. -/
def dummyLibs : ExternalLibs where
  fitzOpen := fun _ => .error "cannot open stream"
  documentOpen := fun _ => .error "Package not found"
  loadWorkbook := fun _ => .error "Package not found"
  presentationOpen := fun _ => .error "Package not found"
  parseCells := fun _ => .ok []
  soupParse := fun _ => Node.elem "[document]" []
  OCR_AVAILABLE := false
  pilOpen := fun _ => .error "cannot identify image file"
  imageToString := fun _ => .ok ""

/-- The parsed DOM of `<script>alert(1)</script><p>Hello</p>` (lxml
hoists the script into `<head>` and the paragraph into `<body>`). -/
def htmlDocWithScript : Node :=
  .elem "[document]"
    [.elem "html"
      [.elem "head" [.elem "script" [.text "alert(1)"]],
       .elem "body" [.elem "p" [.text "Hello"]]]]

/-- The parsed DOM of `<h1>A</h1><h1>B</h1>`: two adjacent headings. -/
def htmlDocTwoHeadings : Node :=
  .elem "[document]"
    [.elem "html"
      [.elem "body" [.elem "h1" [.text "A"], .elem "h1" [.text "B"]]]]

/-- A slide with no shapes and no notes: it emits nothing beyond its
header marker. -/
def emptySlide : PptxSlide := ⟨[], none⟩

/-- A one-slide presentation whose slide has a single text frame. -/
def demoPrs : Pptx := ⟨[⟨[⟨some [["Quarterly", " results"]], none⟩], some "read slowly"⟩]⟩

/-! ### Claims -/

/-- C1: for every call to `dispatch`, a MIME type that is not a key of
the registry fails with `UnsupportedType` carrying the rejected value
(the result is a constant, so no strategy output can influence it), and
for every registered MIME key an empty byte buffer fails with
`EmptyInput` before the strategy — whichever function is registered —
runs. -/
theorem C1_dispatch_rejects_unsupported_and_empty
    (registry : List (String × Extractor)) (mime_type : String)
    (file_bytes : Bytes) (filename : String) :
    (registry.lookup mime_type = none →
      dispatch registry mime_type file_bytes filename =
        .error (.UnsupportedType mime_type)) ∧
    (∀ extractor_fn : Extractor, registry.lookup mime_type = some extractor_fn →
      dispatch registry mime_type [] filename = .error .EmptyInput) := by
  constructor
  · intro h
    simp [dispatch, h]
  · intro extractor_fn h
    simp [dispatch, h]

/-- C1 witness: the concrete registry of `main.py` rejects
`text/plain`, and rejects an empty buffer declared as PDF. -/
theorem C1_dispatch_rejects_unsupported_and_empty_witness :
    dispatch (EXTRACTORS dummyLibs) "text/plain" [1] "notes.txt" =
      .error (.UnsupportedType "text/plain") ∧
    dispatch (EXTRACTORS dummyLibs) "application/pdf" [] "empty.pdf" =
      .error .EmptyInput :=
  ⟨(C1_dispatch_rejects_unsupported_and_empty (EXTRACTORS dummyLibs)
      "text/plain" [1] "notes.txt").1 rfl,
   (C1_dispatch_rejects_unsupported_and_empty (EXTRACTORS dummyLibs)
      "application/pdf" [] "empty.pdf").2
      (fun b f => .ok (pdf.extract dummyLibs.fitzOpen b f)) rfl⟩

/-- C4: whenever `fitz.open` fails on the byte buffer, the PDF strategy
does not throw (it is a total function into result dicts) and returns
the `[PDF Error] Could not open <filename>: <cause>` text with
`page_count = 0`. -/
theorem C4_pdf_open_failure_degrades
    (fitzOpen : Bytes → Except String FitzDoc) (file_bytes : Bytes)
    (filename cause : String) (h : fitzOpen file_bytes = .error cause) :
    pdf.extract fitzOpen file_bytes filename =
      { text := some ("[PDF Error] Could not open " ++ filename ++ ": " ++ cause),
        page_count := some 0, metadata := none } := by
  simp [pdf.extract, h]

/-- C4 witness: a concrete corrupt stream. -/
theorem C4_pdf_open_failure_degrades_witness :
    pdf.extract (fun _ => .error "cannot open stream") [0, 1] "broken.pdf" =
      { text := some "[PDF Error] Could not open broken.pdf: cannot open stream",
        page_count := some 0, metadata := none } :=
  C4_pdf_open_failure_degrades (fun _ => .error "cannot open stream")
    [0, 1] "broken.pdf" "cannot open stream" rfl

/-- C8: with the process-wide OCR capability flag false, the Image
strategy returns the fixed informational text naming the file with
`page_count = 0`, and the result does not depend on the image-decoding
or OCR functions at all (they are never invoked on this path). -/
theorem C8_image_without_ocr_never_decodes
    (pilOpen pilOpen2 : Bytes → Except String PILImage)
    (imageToString imageToString2 : PILImage → Except String String)
    (file_bytes : Bytes) (filename : String) :
    image.extract false pilOpen imageToString file_bytes filename =
      { text := some ("[Image] " ++ filename ++
          "\nOCR not available on this server (Tesseract not installed).\n" ++
          "Install tesseract-ocr to enable full text extraction from images."),
        page_count := some 0, metadata := none } ∧
    image.extract false pilOpen imageToString file_bytes filename =
      image.extract false pilOpen2 imageToString2 file_bytes filename := by
  constructor <;> simp [image.extract]

/-- C3: for every successfully opened PDF, `page_count` is the number of
pages with non-blank extracted text (not the total page count) and the
kept page texts are joined with the literal
`"\n\n---PAGE BREAK---\n\n"` separator; in particular a single
whitespace-only page yields `page_count = 0` and `text = ""`, and a
two-page document with text on both pages yields exactly one separator
occurrence and `page_count = 2`. -/
theorem C3_pdf_nonblank_page_count_and_separator
    (fitzOpen : Bytes → Except String FitzDoc) (file_bytes : Bytes)
    (filename : String) (doc : FitzDoc) (h : fitzOpen file_bytes = .ok doc) :
    (pdf.extract fitzOpen file_bytes filename).page_count =
      some (doc.pages.filter (fun p => pyStrip p != "")).length ∧
    (pdf.extract fitzOpen file_bytes filename).text =
      some (String.intercalate "\n\n---PAGE BREAK---\n\n"
        (doc.pages.filter (fun p => pyStrip p != ""))) ∧
    pdf.extract (fun _ => .ok ⟨["  \n \t  "], []⟩) [0] "blank.pdf" =
      { text := some "", page_count := some 0,
        metadata := some [("title", ""), ("author", ""), ("subject", "")] } ∧
    (pdf.extract (fun _ => .ok ⟨["First page.", "Second page."], []⟩) [0]
        "two.pdf").page_count = some 2 ∧
    strCount ((pdf.extract (fun _ => .ok ⟨["First page.", "Second page."], []⟩) [0]
        "two.pdf").text.getD "") "\n\n---PAGE BREAK---\n\n" = 1 :=
  ⟨by simp [pdf.extract, h], by simp [pdf.extract, h], by decide, by decide, by decide⟩

/-- C3 witness: a concrete two-page document, one page blank. -/
theorem C3_pdf_nonblank_page_count_and_separator_witness :
    (pdf.extract (fun _ => .ok ⟨["Hello", "   "], [("title", "T")]⟩) [0]
        "mixed.pdf").page_count =
      some (["Hello", "   "].filter (fun p => pyStrip p != "")).length ∧
    (pdf.extract (fun _ => .ok ⟨["Hello", "   "], [("title", "T")]⟩) [0]
        "mixed.pdf").text =
      some (String.intercalate "\n\n---PAGE BREAK---\n\n"
        (["Hello", "   "].filter (fun p => pyStrip p != ""))) ∧
    pdf.extract (fun _ => .ok ⟨["  \n \t  "], []⟩) [0] "blank.pdf" =
      { text := some "", page_count := some 0,
        metadata := some [("title", ""), ("author", ""), ("subject", "")] } ∧
    (pdf.extract (fun _ => .ok ⟨["First page.", "Second page."], []⟩) [0]
        "two.pdf").page_count = some 2 ∧
    strCount ((pdf.extract (fun _ => .ok ⟨["First page.", "Second page."], []⟩) [0]
        "two.pdf").text.getD "") "\n\n---PAGE BREAK---\n\n" = 1 :=
  C3_pdf_nonblank_page_count_and_separator
    (fun _ => .ok ⟨["Hello", "   "], [("title", "T")]⟩) [0] "mixed.pdf"
    ⟨["Hello", "   "], [("title", "T")]⟩ rfl

/-- C2: a parse exception raised inside any of the three Office
strategies propagates out of the strategy (their embeddings return the
library's error unchanged) and the dispatcher converts it into
`ExtractionFailed` whose diagnostic is the exception text truncated to
at most 300 characters; the `Except.error` result carries no extracted
text. -/
theorem C2_office_parse_errors_reach_dispatcher
    (documentOpen : Bytes → Except String DocxDoc)
    (loadWorkbook : Bytes → Except String Workbook)
    (presentationOpen : Bytes → Except String Pptx)
    (registry : List (String × Extractor))
    (mimeD mimeX mimeP : String) (file_bytes : Bytes) (filename exc : String)
    (hne : ¬file_bytes = [])
    (hD : registry.lookup mimeD = some (office.extract_docx documentOpen))
    (hX : registry.lookup mimeX = some (office.extract_xlsx loadWorkbook))
    (hP : registry.lookup mimeP = some (office.extract_pptx presentationOpen))
    (eD : documentOpen file_bytes = .error exc)
    (eX : loadWorkbook file_bytes = .error exc)
    (eP : presentationOpen file_bytes = .error exc) :
    dispatch registry mimeD file_bytes filename =
      .error (.ExtractionFailed ("Extraction error: " ++ pyTrunc exc 300)) ∧
    dispatch registry mimeX file_bytes filename =
      .error (.ExtractionFailed ("Extraction error: " ++ pyTrunc exc 300)) ∧
    dispatch registry mimeP file_bytes filename =
      .error (.ExtractionFailed ("Extraction error: " ++ pyTrunc exc 300)) ∧
    (pyTrunc exc 300).length ≤ 300 := by
  refine ⟨?_, ?_, ?_, ?_⟩
  · simp [dispatch, hD, hne, office.extract_docx, eD, Except.map]
  · simp [dispatch, hX, hne, office.extract_xlsx, eX, Except.map]
  · simp [dispatch, hP, hne, office.extract_pptx, eP, Except.map]
  · show (String.mk (exc.data.take 300)).length ≤ 300
    rw [show (String.mk (exc.data.take 300)).length = (exc.data.take 300).length from rfl,
      List.length_take]
    exact Nat.min_le_left 300 exc.data.length

/-- C2 witness: all three office MIME keys of the concrete registry,
with every library open failing. -/
theorem C2_office_parse_errors_reach_dispatcher_witness :
    dispatch (EXTRACTORS dummyLibs)
        "application/vnd.openxmlformats-officedocument.wordprocessingml.document"
        [9] "r.docx" =
      .error (.ExtractionFailed
        ("Extraction error: " ++ pyTrunc "Package not found" 300)) ∧
    dispatch (EXTRACTORS dummyLibs)
        "application/vnd.openxmlformats-officedocument.spreadsheetml.sheet"
        [9] "r.xlsx" =
      .error (.ExtractionFailed
        ("Extraction error: " ++ pyTrunc "Package not found" 300)) ∧
    dispatch (EXTRACTORS dummyLibs)
        "application/vnd.openxmlformats-officedocument.presentationml.presentation"
        [9] "r.pptx" =
      .error (.ExtractionFailed
        ("Extraction error: " ++ pyTrunc "Package not found" 300)) ∧
    (pyTrunc "Package not found" 300).length ≤ 300 := by
  have h := C2_office_parse_errors_reach_dispatcher
    dummyLibs.documentOpen dummyLibs.loadWorkbook dummyLibs.presentationOpen
    (EXTRACTORS dummyLibs)
    "application/vnd.openxmlformats-officedocument.wordprocessingml.document"
    "application/vnd.openxmlformats-officedocument.spreadsheetml.sheet"
    "application/vnd.openxmlformats-officedocument.presentationml.presentation"
    [9] "r.docx" "Package not found" (by decide) rfl rfl rfl rfl rfl rfl
  exact ⟨h.1, h.2.1, h.2.2.1, h.2.2.2⟩

/-- A slide that emits no content beyond its header contributes nothing
to `parts`, wherever it sits; appending one at the end leaves the
accumulated parts unchanged (numbering of earlier slides is
unaffected). -/
theorem pptxParts_append_contentless (s : PptxSlide)
    (hs : office.slideContent s = []) :
    ∀ (n : Nat) (slides : List PptxSlide),
      office.pptxParts n (slides ++ [s]) = office.pptxParts n slides := by
  intro n slides
  induction slides generalizing n with
  | nil => simp [office.pptxParts, office.slideParts, hs]
  | cons hd tl ih => simp [office.pptxParts, ih]

/-- C5: for every successfully opened presentation, `page_count` is the
total slide count, independent of emitted content: appending a slide
with no content beyond its header marker leaves the output text
unchanged while still incrementing `page_count`. -/
theorem C5_pptx_page_count_is_total_slides
    (presentationOpen : Bytes → Except String Pptx) (file_bytes : Bytes)
    (filename : String) (prs : Pptx)
    (h : presentationOpen file_bytes = .ok prs) :
    office.extract_pptx presentationOpen file_bytes filename =
      .ok (office.pptxRender prs) ∧
    (office.pptxRender prs).page_count = some prs.slides.length ∧
    (∀ s : PptxSlide, office.slideContent s = [] →
      (office.pptxRender ⟨prs.slides ++ [s]⟩).text = (office.pptxRender prs).text ∧
      (office.pptxRender ⟨prs.slides ++ [s]⟩).page_count =
        some (prs.slides.length + 1)) := by
  refine ⟨by simp [office.extract_pptx, h, Except.map], rfl, ?_⟩
  intro s hs
  constructor
  · simp [office.pptxRender, pptxParts_append_contentless s hs]
  · simp [office.pptxRender]

/-- C5 witness: a one-slide deck plus an appended contentless slide. -/
theorem C5_pptx_page_count_is_total_slides_witness :
    office.extract_pptx (fun _ => .ok demoPrs) [2] "deck.pptx" =
      .ok (office.pptxRender demoPrs) ∧
    (office.pptxRender demoPrs).page_count = some 1 ∧
    (office.pptxRender ⟨demoPrs.slides ++ [emptySlide]⟩).text =
      (office.pptxRender demoPrs).text ∧
    (office.pptxRender ⟨demoPrs.slides ++ [emptySlide]⟩).page_count = some 2 := by
  have h := C5_pptx_page_count_is_total_slides (fun _ => .ok demoPrs) [2]
    "deck.pptx" demoPrs rfl
  have h3 := h.2.2 emptySlide rfl
  exact ⟨h.1, h.2.1, h3.1, h3.2⟩

/-- C10: whenever the resolved strategy returns a dict, the dispatcher's
response reads each key with its default — a missing `metadata` yields
the empty mapping, a missing `page_count` yields 0, and the text is the
strategy text with outer whitespace stripped; and the strategies that do
omit the `metadata` key (the PDF open-failure branch and every DOCX,
XLSX, PPTX, Notebook and HTML result) indeed return dicts whose
`metadata` field is absent. -/
theorem C10_dispatch_defaults_for_missing_keys
    (registry : List (String × Extractor)) (mime_type : String)
    (file_bytes : Bytes) (filename : String) (extractor_fn : Extractor)
    (result : ExtractorDict)
    (hne : ¬file_bytes = [])
    (hlook : registry.lookup mime_type = some extractor_fn)
    (hok : extractor_fn file_bytes filename = .ok result) :
    dispatch registry mime_type file_bytes filename =
      .ok { text := pyStrip (result.text.getD ""),
            page_count := result.page_count.getD 0,
            metadata := result.metadata.getD [] } ∧
    (∀ (fitzOpen : Bytes → Except String FitzDoc) (cause : String),
      fitzOpen file_bytes = .error cause →
      (pdf.extract fitzOpen file_bytes filename).metadata = none) ∧
    (∀ doc : DocxDoc, (office.docxRender doc).metadata = none) ∧
    (∀ wb : Workbook, (office.xlsxRender wb).metadata = none) ∧
    (∀ prs : Pptx, (office.pptxRender prs).metadata = none) ∧
    (∀ parseCells : Bytes → Except String (List NbCell),
      (notebook.extract parseCells file_bytes filename).metadata = none) ∧
    (∀ soupParse : Bytes → Node,
      (html_extractor.extract soupParse file_bytes filename).metadata = none) := by
  refine ⟨by simp [dispatch, hlook, hne, hok], ?_, fun _ => rfl, fun _ => rfl,
    fun _ => rfl, ?_, fun _ => rfl⟩
  · intro fitzOpen cause hc
    simp [pdf.extract, hc]
  · intro parseCells
    cases hp : parseCells file_bytes <;> simp [notebook.extract, hp]

/-- C10 witness: a strategy whose dict has only a `text` key. -/
theorem C10_dispatch_defaults_for_missing_keys_witness :
    dispatch [("text/html", fun _ _ => .ok { text := some "  hi  " })]
        "text/html" [3] "page.html" =
      .ok { text := "hi", page_count := 0, metadata := [] } ∧
    (pdf.extract (fun _ => .error "bad") [3] "page.html").metadata = none ∧
    (office.docxRender ⟨[], []⟩).metadata = none ∧
    (office.xlsxRender ⟨[]⟩).metadata = none ∧
    (office.pptxRender ⟨[]⟩).metadata = none ∧
    (notebook.extract (fun _ => .ok []) [3] "page.html").metadata = none ∧
    (html_extractor.extract (fun _ => Node.elem "[document]" []) [3]
      "page.html").metadata = none := by
  have h := C10_dispatch_defaults_for_missing_keys
    [("text/html", fun _ _ => .ok { text := some "  hi  " })] "text/html"
    [3] "page.html" (fun _ _ => .ok { text := some "  hi  " })
    { text := some "  hi  " } (by decide) rfl rfl
  exact ⟨h.1, h.2.1 (fun _ => .error "bad") "bad" rfl, h.2.2.1 ⟨[], []⟩,
    h.2.2.2.1 ⟨[]⟩, h.2.2.2.2.1 ⟨[]⟩, h.2.2.2.2.2.1 (fun _ => .ok []),
    h.2.2.2.2.2.2 (fun _ => Node.elem "[document]" [])⟩

/-- C9: the notebook text is the title line followed by the cells'
contributions in document order; a cell whose source is blank (including
an empty fragment list) is omitted entirely; markdown and raw cells are
emitted verbatim; a code cell is wrapped in a fenced `python` block — in
particular `print(1)` appears inside the fence in the output. -/
theorem C9_notebook_cell_processing (file_bytes : Bytes) (filename : String) :
    (∀ cells : List NbCell,
      (notebook.extract (fun _ => .ok cells) file_bytes filename).text =
        some (String.intercalate "\n\n"
          (("# Jupyter Notebook: " ++ filename ++ "\n") ::
            cells.filterMap notebook.cellPart))) ∧
    (∀ (cs1 cs2 : List NbCell) (c : NbCell), c.source = some (.fragments []) →
      (notebook.extract (fun _ => .ok (cs1 ++ c :: cs2)) file_bytes filename).text =
      (notebook.extract (fun _ => .ok (cs1 ++ cs2)) file_bytes filename).text) ∧
    (∀ (c : NbCell) (s : String), pyStrip s = s → s ≠ "" →
      (c.cell_type = some "markdown" ∨ c.cell_type = some "raw") →
      c.source = some (.str s) → notebook.cellPart c = some s) ∧
    (∀ (c : NbCell) (s : String), pyStrip s = s → s ≠ "" →
      c.cell_type = some "code" → c.source = some (.str s) →
      notebook.cellPart c = some ("\n```python\n" ++ s ++ "\n```\n")) ∧
    strContains ((notebook.extract (fun _ => .ok
        [{ cell_type := some "code", source := some (.str "print(1)") }])
        [] "nb.ipynb").text.getD "") "\n```python\nprint(1)\n```\n" = true := by
  refine ⟨fun cells => by simp [notebook.extract], ?_, ?_, ?_, by decide⟩
  · intro cs1 cs2 c hc
    have hjoin : pyStrip (String.join []) = "" := by decide
    have hnone : notebook.cellPart c = none := by
      simp [notebook.cellPart, hc, hjoin]
    simp [notebook.extract, List.filterMap_append, List.filterMap_cons, hnone]
  · intro c s hstrip hne hty hsrc
    rcases hty with hty | hty <;>
      simp [notebook.cellPart, hsrc, hty, hstrip, hne]
  · intro c s hstrip hne hty hsrc
    simp [notebook.cellPart, hsrc, hty, hstrip, hne]

/-- C9 witness: a markdown cell kept verbatim, an empty-source cell
dropped, raw and code cells rendered. -/
theorem C9_notebook_cell_processing_witness :
    (notebook.extract (fun _ => .ok
        ([{ cell_type := some "markdown", source := some (.str "Intro") }] ++
          { cell_type := some "code", source := some (.fragments []) } ::
            [{ cell_type := some "raw", source := some (.str "tail") }]))
        [] "nb.ipynb").text =
      (notebook.extract (fun _ => .ok
        ([{ cell_type := some "markdown", source := some (.str "Intro") }] ++
          [{ cell_type := some "raw", source := some (.str "tail") }]))
        [] "nb.ipynb").text ∧
    notebook.cellPart { cell_type := some "markdown", source := some (.str "Intro") } =
      some "Intro" ∧
    notebook.cellPart { cell_type := some "raw", source := some (.str "tail") } =
      some "tail" ∧
    notebook.cellPart { cell_type := some "code", source := some (.str "print(1)") } =
      some ("\n```python\nprint(1)\n```\n") := by
  have h := C9_notebook_cell_processing [] "nb.ipynb"
  exact ⟨h.2.1 [{ cell_type := some "markdown", source := some (.str "Intro") }]
      [{ cell_type := some "raw", source := some (.str "tail") }]
      { cell_type := some "code", source := some (.fragments []) } rfl,
    h.2.2.1 _ "Intro" (by decide) (by decide) (Or.inl rfl) rfl,
    h.2.2.1 _ "tail" (by decide) (by decide) (Or.inr rfl) rfl,
    h.2.2.2.1 _ "print(1)" (by decide) (by decide) rfl rfl⟩

/-- `bannedFreeKids` distributes over forest concatenation. -/
theorem bannedFreeKids_append (banned : List String) (xs ys : List Node) :
    bannedFreeKids banned (xs ++ ys) =
      (bannedFreeKids banned xs && bannedFreeKids banned ys) := by
  induction xs with
  | nil => simp [bannedFreeKids]
  | cons n rest ih =>
      cases n with
      | text s => simpa [bannedFreeKids] using ih
      | elem name children => simp [bannedFreeKids, ih, Bool.and_assoc]

mutual
/-- After decomposition no banned tag survives anywhere below a node. -/
theorem decomposeNode_bannedFree (banned : List String) :
    (n : Node) → bannedFreeKids banned (html_extractor.decomposeNode banned n) = true
  | .text s => by simp [html_extractor.decomposeNode, bannedFreeKids]
  | .elem name children => by
      by_cases h : name ∈ banned
      · simp [html_extractor.decomposeNode, h, bannedFreeKids]
      · simp [html_extractor.decomposeNode, h, bannedFreeKids,
          decomposeKids_bannedFree banned children]

/-- After decomposition no banned tag survives anywhere in a forest. -/
theorem decomposeKids_bannedFree (banned : List String) :
    (ns : List Node) → bannedFreeKids banned (html_extractor.decomposeKids banned ns) = true
  | [] => by simp [html_extractor.decomposeKids, bannedFreeKids]
  | n :: rest => by
      simp [html_extractor.decomposeKids, bannedFreeKids_append,
        decomposeNode_bannedFree banned n, decomposeKids_bannedFree banned rest]
end

/-- C6: the decomposition pass removes every script, style, nav, footer,
header, aside and noscript element — afterwards no such tag remains
anywhere in the tree, so its text is never visited by the traversal —
and on the parsed DOM of `<script>alert(1)</script><p>Hello</p>` the
extracted text contains `Hello` and does not contain `alert`. -/
theorem C6_html_noncontent_elements_removed :
    (∀ (banned : List String) (ns : List Node),
      bannedFreeKids banned (html_extractor.decomposeKids banned ns) = true) ∧
    strContains ((html_extractor.extract (fun _ => htmlDocWithScript) []
      "page.html").text.getD "") "Hello" = true ∧
    strContains ((html_extractor.extract (fun _ => htmlDocWithScript) []
      "page.html").text.getD "") "alert" = false :=
  ⟨fun banned ns => decomposeKids_bannedFree banned ns, by decide, by decide⟩

/-- The collapse loop's invariant: its output has no two adjacent blank
entries, and when entered with `prev_blank = true` its first kept entry
is non-blank. -/
theorem collapseFrom_no_adjacent_blanks : ∀ (lines : List String),
    (∀ prev : Bool,
      List.Chain' (fun a b => ¬(pyStrip a = "" ∧ pyStrip b = ""))
        (html_extractor.collapseFrom prev lines)) ∧
    (∀ y ∈ (html_extractor.collapseFrom true lines).head?, pyStrip y ≠ "") := by
  intro lines
  induction lines with
  | nil =>
      exact ⟨fun prev => by simp [html_extractor.collapseFrom],
        by simp [html_extractor.collapseFrom]⟩
  | cons line rest ih =>
      by_cases hb : pyStrip line = ""
      · have hskip : html_extractor.collapseFrom true (line :: rest) =
            html_extractor.collapseFrom true rest := by
          simp [html_extractor.collapseFrom, hb]
        have hkeep : html_extractor.collapseFrom false (line :: rest) =
            line :: html_extractor.collapseFrom true rest := by
          simp [html_extractor.collapseFrom, hb]
        refine ⟨fun prev => ?_, ?_⟩
        · cases prev with
          | true => rw [hskip]; exact ih.1 true
          | false =>
              rw [hkeep, List.chain'_cons']
              exact ⟨fun y hy hcon => ih.2 y hy hcon.2, ih.1 true⟩
        · rw [hskip]; exact ih.2
      · have hbeq : (pyStrip line == "") = false := beq_eq_false_iff_ne.mpr hb
        have hkeep : ∀ p : Bool, html_extractor.collapseFrom p (line :: rest) =
            line :: html_extractor.collapseFrom false rest := by
          intro p
          simp [html_extractor.collapseFrom, hbeq]
        refine ⟨fun prev => ?_, ?_⟩
        · rw [hkeep prev, List.chain'_cons']
          exact ⟨fun y _ hcon => hb hcon.1, ih.1 false⟩
        · rw [hkeep true]
          intro y hy
          rw [List.head?_cons, Option.mem_some_iff] at hy
          subst hy
          exact hb

/-- C7 counterexample: on the parsed DOM of `<h1>A</h1><h1>B</h1>` the
final output text is `"\n## A\n\n\n## B\n"`, whose line decomposition
`["", "## A", "", "", "## B", ""]` has two consecutive blank lines
(entries 2 and 3) — the final text does NOT contain at most one blank
line in a row, refuting the claim as stated. -/
theorem C7_counterexample_two_adjacent_blank_output_lines :
    (html_extractor.extract (fun _ => htmlDocTwoHeadings) [] "h.html").text =
      some "\n## A\n\n\n## B\n" ∧
    pySplitNl "\n## A\n\n\n## B\n" = ["", "## A", "", "", "## B", ""] ∧
    strContains "\n## A\n\n\n## B\n" "\n\n\n" = true := by
  decide

/-- C7 (amended): the collapse applies to the entries of the
intermediate line list, not to the lines of the final text — the
collapsed list never holds two adjacent blank entries (in particular
three consecutive blank entries become one), while the joined output
text may still contain two consecutive blank lines because retained
entries embed their own newlines. -/
theorem C7_collapse_bounds_blank_list_entries :
    (∀ lines : List String,
      List.Chain' (fun a b => ¬(pyStrip a = "" ∧ pyStrip b = ""))
        (html_extractor.collapseBlankLines lines)) ∧
    html_extractor.collapseBlankLines ["", "", ""] = [""] :=
  ⟨fun lines => (collapseFrom_no_adjacent_blanks lines).1 false, by decide⟩
